import Mathlib

/-!
Verification of the CPU-throttling coordinator of the auto-marketing
platform (`src/cpu_manager.py`): the resource governor (`CPUManager`)
and the concurrency limiter (`ProcessThrottler`).

Shallow embedding conventions:
* Python floats that only undergo comparisons and additions are modelled
  as rationals (`ℚ`).
* The shared mutable fields written by the background monitor thread and
  read by callers (`current_cpu_usage`, `throttle_active`) are modelled
  explicitly: the monitor loop is a fold of a per-sample step function
  over the list of sampler readings, and `wait_for_cpu` reads a stream
  `ℕ → Obs` giving the shared values it observes on each loop iteration.
* Blocking loops are given fuel; `none` means the loop has not returned
  within the given number of iterations.
* A Python call that may raise is modelled in the `Except` monad; code
  with no `try`/`except` around such a call is the monadic bind, so the
  error short-circuits.
-/

/-- State of a `CPUManager` instance (`src/cpu_manager.py`, `__init__`):
the fields relevant to sampling and throttling. -/
structure GovState where
  max_cpu_percent : ℚ
  current_cpu_usage : ℚ
  throttle_active : Bool
  deriving Repr, DecidableEq

/-- One iteration of the body of `CPUManager._monitor_cpu`
(`src/cpu_manager.py` lines 56-64): store the sample into
`current_cpu_usage`, then set `throttle_active` to true when the stored
value is at or above `max_cpu_percent` and to false otherwise.
(The `time.sleep(check_interval)` at the end of the body does not change
the state.) -/
def monitorStep (s : GovState) (sample : ℚ) : GovState :=
  let s1 : GovState := { s with current_cpu_usage := sample }
  if s1.current_cpu_usage ≥ s1.max_cpu_percent then
    { s1 with throttle_active := true }
  else
    { s1 with throttle_active := false }

/-- The monitor loop of `CPUManager._monitor_cpu` run over a finite list of
sampler readings (the loop keeps iterating while `monitoring` is true;
each iteration is `monitorStep`). -/
def monitorRun (s : GovState) (samples : List ℚ) : GovState :=
  samples.foldl monitorStep s

/-- The sleep chosen by one backoff iteration of `CPUManager.wait_for_cpu`
(`src/cpu_manager.py` lines 84-91): 2.0 s when `excess > 20`, 1.0 s when
`excess > 10`, else 0.5 s, where `excess = current_cpu_usage - max_cpu_percent`. -/
def sleepTime (excess : ℚ) : ℚ :=
  if excess > 20 then 2
  else if excess > 10 then 1
  else 1/2

/-- State of a `ProcessThrottler` instance (`src/cpu_manager.py` lines
164-167): the process counter and the concurrency budget. -/
structure ThrottlerState where
  process_count : ℤ
  max_concurrent : ℕ
  deriving Repr, DecidableEq

/-- `ProcessThrottler._calculate_max_concurrent` (`src/cpu_manager.py`
lines 169-173): `max(1, cpu_count // 2)` with Python floor division on the
logical core count. -/
def calculate_max_concurrent (cpu_count : ℕ) : ℕ :=
  max 1 (cpu_count / 2)

/-- `ProcessThrottler.__init__` (`src/cpu_manager.py` lines 164-167):
`process_count = 0`, `max_concurrent = _calculate_max_concurrent()`. -/
def mkProcessThrottler (cpu_count : ℕ) : ThrottlerState :=
  { process_count := 0, max_concurrent := calculate_max_concurrent cpu_count }

/-- `ProcessThrottler.can_start_process` (`src/cpu_manager.py` lines
175-178): `process_count < max_concurrent and not cpu_manager.throttle_active`.
It reads the throttler state and the governor state and returns a `Bool`
without producing a new state: a pure predicate. -/
def can_start_process (t : ThrottlerState) (g : GovState) : Bool :=
  decide (t.process_count < (t.max_concurrent : ℤ)) && !g.throttle_active

/-- `ProcessThrottler.start_process` (`src/cpu_manager.py` lines 180-183):
increments `process_count` (the preceding `wait_for_cpu()` call does not
change the counter). -/
def start_process (t : ThrottlerState) : ThrottlerState :=
  { t with process_count := t.process_count + 1 }

/-- `ProcessThrottler.end_process` (`src/cpu_manager.py` lines 185-187):
`process_count = max(0, process_count - 1)`. -/
def end_process (t : ThrottlerState) : ThrottlerState :=
  { t with process_count := max 0 (t.process_count - 1) }

/-- A call to `start_process` or `end_process` on the throttler. -/
inductive ThrottlerOp where
  | startProcess
  | endProcess
  deriving Repr, DecidableEq

/-- Apply one bracketing call to the throttler state. -/
def applyOp (t : ThrottlerState) : ThrottlerOp → ThrottlerState
  | .startProcess => start_process t
  | .endProcess => end_process t

/-- Apply a sequence of bracketing calls to the throttler state. -/
def applyOps (t : ThrottlerState) (ops : List ThrottlerOp) : ThrottlerState :=
  ops.foldl applyOp t

/-- The shared-state values a `wait_for_cpu` loop iteration reads from the
governor: `throttle_active` and `current_cpu_usage` (written concurrently
by the monitor thread, so each iteration may observe different values). -/
structure Obs where
  throttle_active : Bool
  current_cpu_usage : ℚ
  deriving Repr, DecidableEq

/-- Python truthiness of the `timeout` argument as used by the guard
`if timeout and ...` in `CPUManager.wait_for_cpu` (line 81): `None` and
`0.0` are falsy, every other float is truthy. -/
def timeoutTruthy : Option ℚ → Bool
  | none => false
  | some t => decide (t ≠ 0)

/-- `CPUManager.wait_for_cpu` (`src/cpu_manager.py` lines 68-96), with
fuel bounding the number of loop iterations (`none` = the loop has not
returned within `fuel` iterations). `env i` gives the shared governor
values observed on iteration `i`; `elapsed` models
`time.time() - start_time`, advanced by each sleep. Per iteration: exit
with `true` when `throttle_active` is observed false; otherwise return
`false` when `timeout` is truthy and the deadline has passed; otherwise
sleep `sleepTime excess` and loop. -/
def wait_for_cpu (maxCpu : ℚ) : (ℕ → Obs) → Option ℚ → ℕ → ℚ → Option Bool
  | _, _, 0, _ => none
  | env, timeout, fuel+1, elapsed =>
    if (env 0).throttle_active = false then some true
    else if timeoutTruthy timeout && decide (timeout.getD 0 ≤ elapsed) then some false
    else wait_for_cpu maxCpu (fun n => env (n+1)) timeout fuel
        (elapsed + sleepTime ((env 0).current_cpu_usage - maxCpu))

/-- `time.time() - start_time` at the start of iteration `i` of the
`wait_for_cpu` loop: the initial value plus the sleeps of the earlier
iterations. -/
def elapsedAt (maxCpu : ℚ) (env : ℕ → Obs) (e : ℚ) : ℕ → ℚ
  | 0 => e
  | i+1 => elapsedAt maxCpu env e i + sleepTime ((env i).current_cpu_usage - maxCpu)

/-- A governor permanently throttled at 100% usage (a fake sampler fixed
above the ceiling). -/
def envAlwaysHot : ℕ → Obs :=
  fun _ => { throttle_active := true, current_cpu_usage := 100 }

/-- A governor throttled at 85% usage for the first two `wait_for_cpu`
iterations, then clear at 50%. -/
def envCoolsAt2 : ℕ → Obs :=
  fun n => if n < 2 then { throttle_active := true, current_cpu_usage := 85 }
    else { throttle_active := false, current_cpu_usage := 50 }

/-- An element of the `tasks` list passed to
`ProcessThrottler.throttled_batch_execute`: either a callable whose call
returns a value or raises, or a non-callable object. -/
inductive PyTask (ε α : Type) where
  | callable (run : Except ε α)
  | notCallable

/-- Python `callable(task)` (line 209). -/
def PyTask.isCallable {ε α : Type} : PyTask ε α → Bool
  | .callable _ => true
  | .notCallable => false

/-- The inner `for task in batch` loop of `throttled_batch_execute`
(`src/cpu_manager.py` lines 208-213): skip non-callables, call each
callable in order appending its result, and let a raised error propagate
at once (there is no `try`/`except`); the `adaptive_sleep` between tasks
does not affect the results. -/
def runChunk {ε α : Type} : List (PyTask ε α) → Except ε (List α)
  | [] => .ok []
  | .notCallable :: ts => runChunk ts
  | .callable (.error e) :: _ => .error e
  | .callable (.ok v) :: ts =>
      match runChunk ts with
      | .error e => .error e
      | .ok vs => .ok (v :: vs)

/-- The batch partition `tasks[i:i+batch_size]` for
`i in range(0, len(tasks), batch_size)` (lines 201-202), for a positive
step: successive chunks of `n` elements. (Python raises `ValueError` for
step 0, so `n = 0` is outside the modelled domain; the claims below
assume a positive batch size.) -/
def toChunks {α : Type} (n : ℕ) : List α → List (List α)
  | [] => []
  | x :: xs => (x :: xs.take (n-1)) :: toChunks n (xs.drop (n-1))
termination_by l => l.length
decreasing_by
  simp only [List.length_drop, List.length_cons]
  omega

/-- The outer loop of `throttled_batch_execute` over batches (lines
201-216): the `wait_for_cpu` before each batch and the `adaptive_sleep`
between batches do not affect the results; each batch's results are
appended to the shared `results` list, and an error from any task
propagates at once. -/
def runChunks {ε α : Type} : List (List (PyTask ε α)) → Except ε (List α)
  | [] => .ok []
  | c :: cs =>
      match runChunk c with
      | .error e => .error e
      | .ok vs =>
          match runChunks cs with
          | .error e => .error e
          | .ok rest => .ok (vs ++ rest)

/-- `ProcessThrottler.throttled_batch_execute` (`src/cpu_manager.py`
lines 189-218): the batch size defaults to `max_concurrent`, the tasks
are partitioned into batches, and the batches are executed in order. -/
def throttled_batch_execute {ε α : Type} (t : ThrottlerState)
    (tasks : List (PyTask ε α)) (batch_size : Option ℕ) : Except ε (List α) :=
  runChunks (toChunks (batch_size.getD t.max_concurrent) tasks)

/-- Sequencing of two batch results: an error in the first batch
short-circuits, otherwise the second batch runs and the result lists are
appended (the shared `results` list of `throttled_batch_execute`). -/
def exceptAppend {ε α : Type} (a b : Except ε (List α)) : Except ε (List α) :=
  match a with
  | .error e => .error e
  | .ok vs =>
      match b with
      | .error e => .error e
      | .ok ws => .ok (vs ++ ws)

/-- One iteration of the `_monitor_cpu` loop body where the
`psutil.cpu_percent` call may raise: the loop body has no `try`/`except`
(`src/cpu_manager.py` lines 54-66), so in the `Except` monad the sample
is bound directly and an error short-circuits. -/
def monitorStepE (s : GovState) (sample : Except Unit ℚ) : Except Unit GovState :=
  match sample with
  | .error err => .error err
  | .ok v => .ok (monitorStep s v)

/-- The `_monitor_cpu` loop run over a list of sampler outcomes, where a
raising sampler call terminates the loop with the error (the exception
propagates out of `_monitor_cpu` and the thread dies). -/
def monitorRunE (s : GovState) : List (Except Unit ℚ) → Except Unit GovState
  | [] => .ok s
  | sample :: rest =>
      match monitorStepE s sample with
      | .error err => .error err
      | .ok s1 => monitorRunE s1 rest

lemma monitorStep_throttle (s : GovState) (v : ℚ) :
    (monitorStep s v).throttle_active = decide (v ≥ s.max_cpu_percent) ∧
      (monitorStep s v).current_cpu_usage = v ∧
      (monitorStep s v).max_cpu_percent = s.max_cpu_percent := by
  unfold monitorStep
  by_cases h : v ≥ s.max_cpu_percent <;> simp [h]

lemma monitorRun_append (s : GovState) (l : List ℚ) (v : ℚ) :
    monitorRun s (l ++ [v]) = monitorStep (monitorRun s l) v := by
  simp [monitorRun]

lemma monitorRun_max (s : GovState) (l : List ℚ) :
    (monitorRun s l).max_cpu_percent = s.max_cpu_percent := by
  induction l generalizing s with
  | nil => rfl
  | cons x xs ih =>
      simp only [monitorRun, List.foldl_cons] at *
      rw [ih]
      exact (monitorStep_throttle s x).2.2

/-- C1: immediately after the monitor loop stores any sample `v` (at the
end of any run of samples), `throttle_active` equals
`current_usage ≥ max_cpu_percent`: true for a sample at or above the
ceiling and false for a sample strictly below it, and the stored usage is
exactly the sample. -/
theorem monitor_sample_throttle_invariant (s : GovState) (pre : List ℚ) (v : ℚ) :
    (monitorRun s (pre ++ [v])).throttle_active
        = decide ((monitorRun s (pre ++ [v])).current_cpu_usage
            ≥ (monitorRun s (pre ++ [v])).max_cpu_percent) ∧
      (monitorRun s (pre ++ [v])).current_cpu_usage = v ∧
      (monitorRun s (pre ++ [v])).max_cpu_percent = s.max_cpu_percent := by
  rw [monitorRun_append]
  obtain ⟨h1, h2, h3⟩ := monitorStep_throttle (monitorRun s pre) v
  rw [h1, h2, h3, monitorRun_max]
  exact ⟨rfl, rfl, rfl⟩

/-- C4: the backoff sleep of `wait_for_cpu` is exactly 2.0 s when the
excess over the ceiling is greater than 20, exactly 1.0 s when it is
greater than 10 (and at most 20), and exactly 0.5 s otherwise; in
particular excess 25, 15 and 5 give 2.0 s, 1.0 s and 0.5 s. -/
theorem wait_backoff_sleep_policy (excess : ℚ) :
    (excess > 20 → sleepTime excess = 2) ∧
      (excess > 10 → excess ≤ 20 → sleepTime excess = 1) ∧
      (excess ≤ 10 → sleepTime excess = 1/2) ∧
      sleepTime 25 = 2 ∧ sleepTime 15 = 1 ∧ sleepTime 5 = 1/2 := by
  refine ⟨fun h => ?_, fun h1 h2 => ?_, fun h => ?_, by norm_num [sleepTime],
    by norm_num [sleepTime], by norm_num [sleepTime]⟩
  · simp [sleepTime, h]
  · simp [sleepTime, h1, not_lt.mpr h2]
  · have h20 : ¬ (20 : ℚ) < excess := not_lt.mpr (le_trans h (by norm_num))
    simp [sleepTime, not_lt.mpr h, h20]

/-- Witness for C4 at excess 25, 15 and 5. -/
theorem wait_backoff_sleep_policy_witness :
    sleepTime 25 = 2 ∧ sleepTime 15 = 1 ∧ sleepTime 5 = 1/2 :=
  ⟨(wait_backoff_sleep_policy 25).1 (by norm_num),
    (wait_backoff_sleep_policy 15).2.1 (by norm_num) (by norm_num),
    (wait_backoff_sleep_policy 5).2.2.1 (by norm_num)⟩

/-- C6: the throttler's concurrency budget is computed at construction as
`max 1 (cpu_count / 2)` with integer halving; core count 4 gives 2 and
core count 1 gives 1, and the budget is always at least 1. -/
theorem max_concurrent_from_cores (cpu_count : ℕ) :
    (mkProcessThrottler cpu_count).max_concurrent = max 1 (cpu_count / 2) ∧
      (mkProcessThrottler 4).max_concurrent = 2 ∧
      (mkProcessThrottler 1).max_concurrent = 1 ∧
      1 ≤ (mkProcessThrottler cpu_count).max_concurrent := by
  refine ⟨rfl, by decide, by decide, ?_⟩
  simp [mkProcessThrottler, calculate_max_concurrent]

/-- C7: `can_start_process` is true exactly when `process_count` is below
`max_concurrent` and the governor is not throttling; hence it is false
whenever `process_count ≥ max_concurrent` (whatever the throttle flag)
and false whenever `throttle_active` is true (whatever the count). As a
Lean function of the two states it returns a `Bool` and produces no new
state: it has no side effects. -/
theorem can_start_iff (t : ThrottlerState) (g : GovState) :
    (can_start_process t g = true ↔
        t.process_count < (t.max_concurrent : ℤ) ∧ g.throttle_active = false) ∧
      ((t.max_concurrent : ℤ) ≤ t.process_count → can_start_process t g = false) ∧
      (g.throttle_active = true → can_start_process t g = false) := by
  refine ⟨?_, fun h => ?_, fun h => ?_⟩
  · simp [can_start_process]
  · simp [can_start_process, not_lt.mpr h]
  · simp [can_start_process, h]

/-- Witness for C7: at `process_count = 2`, `max_concurrent = 2` the
predicate is false even though the governor is idle, and at
`process_count = 0` it is false when the governor throttles. -/
theorem can_start_iff_witness :
    can_start_process ⟨2, 2⟩ ⟨80, 50, false⟩ = false ∧
      can_start_process ⟨0, 2⟩ ⟨80, 90, true⟩ = false :=
  ⟨(can_start_iff ⟨2, 2⟩ ⟨80, 50, false⟩).2.1 (by norm_num),
    (can_start_iff ⟨0, 2⟩ ⟨80, 90, true⟩).2.2 rfl⟩

lemma applyOp_nonneg (t : ThrottlerState) (op : ThrottlerOp) (h : 0 ≤ t.process_count) :
    0 ≤ (applyOp t op).process_count := by
  cases op with
  | startProcess => simpa [applyOp, start_process] using le_trans h (by omega)
  | endProcess => simp [applyOp, end_process]

/-- C8: across any sequence of `start_process`/`end_process` calls the
process counter never becomes negative — `end_process` clamps at 0 — and
an `end_process` with no prior `start_process` leaves the counter at 0. -/
theorem process_count_never_negative (t : ThrottlerState) (ops : List ThrottlerOp)
    (h : 0 ≤ t.process_count) :
    0 ≤ (applyOps t ops).process_count ∧
      (applyOps (mkProcessThrottler 4) [ThrottlerOp.endProcess]).process_count = 0 := by
  refine ⟨?_, by decide⟩
  induction ops generalizing t with
  | nil => exact h
  | cons op rest ih =>
      simp only [applyOps, List.foldl_cons] at *
      exact ih (applyOp t op) (applyOp_nonneg t op h)

/-- Witness for C8: starting from a freshly constructed throttler
(counter 0), the sequence end, begin, end, end keeps the counter at 0. -/
theorem process_count_never_negative_witness :
    0 ≤ (applyOps (mkProcessThrottler 4)
        [ThrottlerOp.endProcess, ThrottlerOp.startProcess,
          ThrottlerOp.endProcess, ThrottlerOp.endProcess]).process_count ∧
      (applyOps (mkProcessThrottler 4) [ThrottlerOp.endProcess]).process_count = 0 :=
  process_count_never_negative (mkProcessThrottler 4)
    [ThrottlerOp.endProcess, ThrottlerOp.startProcess,
      ThrottlerOp.endProcess, ThrottlerOp.endProcess] (by decide)

lemma wait_eq_of_timeout_falsy (maxCpu : ℚ) (tmo : Option ℚ)
    (hto : timeoutTruthy tmo = false) :
    ∀ fuel (env : ℕ → Obs) (e : ℚ),
      wait_for_cpu maxCpu env tmo fuel e = wait_for_cpu maxCpu env none fuel e := by
  intro fuel
  induction fuel with
  | zero => intro env e; rfl
  | succ f ih =>
      intro env e
      simp only [wait_for_cpu, hto, Bool.false_and]
      by_cases h : (env 0).throttle_active = false
      · simp [h]
      · simp only [h, if_false, timeoutTruthy, Bool.false_and, if_neg]
        simp [ih]

lemma wait_never_false (maxCpu : ℚ) (tmo : Option ℚ)
    (hto : timeoutTruthy tmo = false) :
    ∀ fuel (env : ℕ → Obs) (e : ℚ), wait_for_cpu maxCpu env tmo fuel e ≠ some false := by
  intro fuel
  induction fuel with
  | zero => intro env e h; exact Option.noConfusion h
  | succ f ih =>
      intro env e
      simp only [wait_for_cpu, hto, Bool.false_and]
      by_cases h : (env 0).throttle_active = false
      · simp [h]
      · simp only [h, if_false]
        simp only [Bool.false_eq_true, if_false]
        exact ih _ _

lemma wait_blocks_forever (maxCpu : ℚ) (tmo : Option ℚ)
    (hto : timeoutTruthy tmo = false) :
    ∀ fuel (env : ℕ → Obs) (e : ℚ), (∀ n, (env n).throttle_active = true) →
      wait_for_cpu maxCpu env tmo fuel e = none := by
  intro fuel
  induction fuel with
  | zero => intro env e _; rfl
  | succ f ih =>
      intro env e hthr
      simp only [wait_for_cpu, hto, Bool.false_and]
      simp only [hthr 0, Bool.true_eq_false, if_false, Bool.false_eq_true, if_false]
      exact ih _ _ (fun n => hthr (n+1))

lemma elapsedAt_shift (maxCpu : ℚ) (env : ℕ → Obs) (e : ℚ) :
    ∀ i, elapsedAt maxCpu (fun n => env (n+1))
        (e + sleepTime ((env 0).current_cpu_usage - maxCpu)) i
      = elapsedAt maxCpu env e (i+1) := by
  intro i
  induction i with
  | zero => rfl
  | succ k ih => simp only [elapsedAt, ih]

lemma wait_true_of_clear (maxCpu : ℚ) (tmo : Option ℚ) :
    ∀ j fuel (env : ℕ → Obs) (e : ℚ), j < fuel →
      (env j).throttle_active = false →
      (∀ i, i < j → (env i).throttle_active = true) →
      (∀ i, i < j →
        (timeoutTruthy tmo && decide (tmo.getD 0 ≤ elapsedAt maxCpu env e i)) = false) →
      wait_for_cpu maxCpu env tmo fuel e = some true := by
  intro j
  induction j with
  | zero =>
      intro fuel env e hf hclear _ _
      match fuel, hf with
      | f+1, _ => simp [wait_for_cpu, hclear]
  | succ k ih =>
      intro fuel env e hf hclear hthr hguard
      match fuel, hf with
      | f+1, hf =>
        have h0 : (env 0).throttle_active = true := hthr 0 (Nat.succ_pos k)
        have hg0 := hguard 0 (Nat.succ_pos k)
        simp only [elapsedAt] at hg0
        simp only [wait_for_cpu, h0, Bool.true_eq_false, if_false, hg0,
          Bool.false_eq_true, if_false]
        refine ih f (fun n => env (n+1)) _ (Nat.lt_of_succ_lt_succ hf) hclear
          (fun i hi => hthr (i+1) (Nat.succ_lt_succ hi)) ?_
        intro i hi
        rw [elapsedAt_shift]
        exact hguard (i+1) (Nat.succ_lt_succ hi)

lemma sleepTime_ge_half (excess : ℚ) : 1/2 ≤ sleepTime excess := by
  unfold sleepTime
  split_ifs <;> norm_num

lemma wait_false_of_deadline (maxCpu t : ℚ) (ht : t ≠ 0) :
    ∀ (fuel : ℕ) (env : ℕ → Obs) (e : ℚ), (∀ n, (env n).throttle_active = true) →
      (t - e) * 2 + 1 < (fuel : ℚ) → 1 ≤ fuel →
      wait_for_cpu maxCpu env (some t) fuel e = some false := by
  intro fuel
  induction fuel with
  | zero => intro env e _ _ h1; omega
  | succ f ih =>
      intro env e hthr hlt _
      have h0 := hthr 0
      by_cases hde : t ≤ e
      · simp [wait_for_cpu, h0, timeoutTruthy, ht, hde]
      · have hguard : (timeoutTruthy (some t) && decide ((some t : Option ℚ).getD 0 ≤ e))
            = false := by
          simp [timeoutTruthy, hde]
        simp only [wait_for_cpu, h0, Bool.true_eq_false, if_false, hguard,
          Bool.false_eq_true, if_false]
        have hs := sleepTime_ge_half ((env 0).current_cpu_usage - maxCpu)
        push_cast at hlt
        have hef : e < t := lt_of_not_le hde
        have hfq : (0 : ℚ) < (f : ℚ) := by linarith
        have hf1 : 1 ≤ f := Nat.one_le_iff_ne_zero.mpr
          (by intro h0f; rw [h0f] at hfq; norm_num at hfq)
        refine ih (fun n => env (n+1)) _ (fun n => hthr (n+1)) ?_ hf1
        linarith

/-- C2 (amended): for every call to `wait_for_cpu`: with no timeout it
never returns `false`; it returns `true` once throttling is observed
clear; with a finite POSITIVE timeout it returns `false` (rather than
raising) once the deadline has elapsed while still throttled, within any
fuel of at least `2 * timeout + 2` iterations; and with a finite positive
timeout it returns `true` when throttling clears while the elapsed time
is still below the deadline. (The claim as stated fails for the finite
timeout value 0, which the truthiness guard treats as no timeout.) -/
theorem wait_for_cpu_return_semantics (maxCpu t : ℚ) (env : ℕ → Obs) (ht : 0 < t) :
    (∀ (fuel : ℕ) (e : ℚ), wait_for_cpu maxCpu env none fuel e ≠ some false) ∧
      (∀ (j fuel : ℕ) (e : ℚ), j < fuel → (env j).throttle_active = false →
        (∀ i, i < j → (env i).throttle_active = true) →
        wait_for_cpu maxCpu env none fuel e = some true) ∧
      ((∀ n, (env n).throttle_active = true) → ∀ fuel : ℕ, 2 * t + 2 ≤ (fuel : ℚ) →
        wait_for_cpu maxCpu env (some t) fuel 0 = some false) ∧
      (∀ j fuel : ℕ, j < fuel → (env j).throttle_active = false →
        (∀ i, i < j → (env i).throttle_active = true ∧ elapsedAt maxCpu env 0 i < t) →
        wait_for_cpu maxCpu env (some t) fuel 0 = some true) := by
  refine ⟨fun fuel e => wait_never_false maxCpu none rfl fuel env e,
    fun j fuel e hjf hclear hthr =>
      wait_true_of_clear maxCpu none j fuel env e hjf hclear hthr
        (fun i _ => by simp [timeoutTruthy]),
    fun hthr fuel hfuel => ?_,
    fun j fuel hjf hclear h => ?_⟩
  · refine wait_false_of_deadline maxCpu t ht.ne' fuel env 0 hthr (by linarith) ?_
    have h1 : (1 : ℚ) ≤ (fuel : ℚ) := by linarith
    exact_mod_cast h1
  · refine wait_true_of_clear maxCpu (some t) j fuel env 0 hjf hclear
      (fun i hi => (h i hi).1) (fun i hi => ?_)
    simp [not_le.mpr (h i hi).2]

/-- Witness for C2 (amended): with the permanently hot governor and
timeout 1, `wait_for_cpu` returns `false`; with a governor that cools on
iteration 2, it returns `true` both with no timeout and with timeout 1. -/
theorem wait_for_cpu_return_semantics_witness :
    wait_for_cpu 80 envAlwaysHot (some 1) 4 0 = some false ∧
      wait_for_cpu 80 envCoolsAt2 none 3 0 = some true ∧
      wait_for_cpu 80 envCoolsAt2 (some 1) 3 0 = some true := by
  refine ⟨(wait_for_cpu_return_semantics 80 1 envAlwaysHot (by norm_num)).2.2.1
      (fun n => rfl) 4 (by norm_num),
    (wait_for_cpu_return_semantics 80 1 envCoolsAt2 (by norm_num)).2.1 2 3 0
      (by norm_num) rfl (fun i hi => ?_),
    (wait_for_cpu_return_semantics 80 1 envCoolsAt2 (by norm_num)).2.2.2 2 3
      (by norm_num) rfl (fun i hi => ?_)⟩
  · interval_cases i <;> rfl
  · interval_cases i <;>
      exact ⟨rfl, by norm_num [elapsedAt, envCoolsAt2, sleepTime]⟩

/-- C2 counterexample: the claim quantifies over every finite timeout,
but the finite timeout 0 is falsy in Python, so the deadline branch is
unreachable: with a permanently throttled governor, `wait_for_cpu` with
timeout 0 behaves exactly like the no-timeout call (10 iterations return
nothing), whereas timeout 1 does return `false`. -/
theorem wait_for_cpu_timeout_zero_countereg :
    wait_for_cpu 80 envAlwaysHot (some 0) 10 0 = none ∧
      wait_for_cpu 80 envAlwaysHot none 10 0 = none ∧
      wait_for_cpu 80 envAlwaysHot (some 1) 10 0 = some false := by
  refine ⟨?_, ?_, ?_⟩ <;>
    norm_num [wait_for_cpu, envAlwaysHot, timeoutTruthy, sleepTime]

/-- C9: `wait_for_cpu` with timeout 0 behaves exactly like a call with
no timeout, because the deadline check is guarded by the truthiness of
the timeout argument: it can never return `false`, and while the
governor stays throttled it never returns at all. -/
theorem wait_for_cpu_zero_timeout_is_no_timeout (maxCpu e : ℚ) (env : ℕ → Obs)
    (fuel : ℕ) :
    wait_for_cpu maxCpu env (some 0) fuel e = wait_for_cpu maxCpu env none fuel e ∧
      wait_for_cpu maxCpu env (some 0) fuel e ≠ some false ∧
      ((∀ n, (env n).throttle_active = true) →
        wait_for_cpu maxCpu env (some 0) fuel e = none) := by
  have hto : timeoutTruthy (some 0) = false := by simp [timeoutTruthy]
  exact ⟨wait_eq_of_timeout_falsy maxCpu (some 0) hto fuel env e,
    wait_never_false maxCpu (some 0) hto fuel env e,
    fun h => wait_blocks_forever maxCpu (some 0) hto fuel env e h⟩

/-- Witness for C9 with the permanently hot governor and fuel 6. -/
theorem wait_for_cpu_zero_timeout_is_no_timeout_witness :
    wait_for_cpu 80 envAlwaysHot (some 0) 6 0 = wait_for_cpu 80 envAlwaysHot none 6 0 ∧
      wait_for_cpu 80 envAlwaysHot (some 0) 6 0 ≠ some false ∧
      wait_for_cpu 80 envAlwaysHot (some 0) 6 0 = none := by
  obtain ⟨h1, h2, h3⟩ := wait_for_cpu_zero_timeout_is_no_timeout 80 0 envAlwaysHot 6
  exact ⟨h1, h2, h3 (fun n => rfl)⟩

lemma toChunks_join_bounded {α : Type} (n : ℕ) :
    ∀ (len : ℕ) (l : List α), l.length ≤ len → (toChunks n l).flatten = l := by
  intro len
  induction len with
  | zero =>
      intro l hl
      rw [List.length_eq_zero.mp (Nat.le_zero.mp hl)]
      simp [toChunks]
  | succ k ih =>
      intro l hl
      cases l with
      | nil => simp [toChunks]
      | cons x xs =>
          have hlen : (xs.drop (n-1)).length ≤ k := by
            simp only [List.length_drop]
            simp only [List.length_cons] at hl
            omega
          rw [toChunks]
          simp only [List.flatten_cons, ih (xs.drop (n-1)) hlen]
          simp [List.cons_append, List.take_append_drop]

lemma toChunks_join {α : Type} (n : ℕ) (l : List α) : (toChunks n l).flatten = l :=
  toChunks_join_bounded n l.length l le_rfl

lemma runChunk_append {ε α : Type} (l1 l2 : List (PyTask ε α)) :
    runChunk (l1 ++ l2) = exceptAppend (runChunk l1) (runChunk l2) := by
  induction l1 with
  | nil =>
      show runChunk l2 = exceptAppend (Except.ok []) (runChunk l2)
      cases runChunk l2 <;> rfl
  | cons t ts ih =>
      cases t with
      | notCallable => simpa [runChunk] using ih
      | callable r =>
          cases r with
          | error e => rfl
          | ok v =>
              show (match runChunk (ts ++ l2) with
                | Except.error e => Except.error e
                | Except.ok vs => Except.ok (v :: vs))
                  = exceptAppend (match runChunk ts with
                    | Except.error e => Except.error e
                    | Except.ok vs => Except.ok (v :: vs)) (runChunk l2)
              rw [ih]
              cases runChunk ts <;> cases runChunk l2 <;> rfl

lemma runChunks_eq_join {ε α : Type} (cs : List (List (PyTask ε α))) :
    runChunks cs = runChunk cs.flatten := by
  induction cs with
  | nil => rfl
  | cons c cs ih =>
      show (match runChunk c with
        | Except.error e => Except.error e
        | Except.ok vs =>
            match runChunks cs with
            | Except.error e => Except.error e
            | Except.ok rest => Except.ok (vs ++ rest))
          = runChunk (c ++ cs.flatten)
      rw [ih, runChunk_append]
      cases runChunk c <;> cases runChunk cs.flatten <;> rfl

lemma tbe_eq_runChunk {ε α : Type} (t : ThrottlerState) (tasks : List (PyTask ε α))
    (bs : Option ℕ) : throttled_batch_execute t tasks bs = runChunk tasks := by
  unfold throttled_batch_execute
  rw [runChunks_eq_join, toChunks_join]

lemma runChunk_all_ok {ε α : Type} (vs : List α) :
    runChunk (vs.map (fun v => (PyTask.callable (Except.ok v) : PyTask ε α)))
      = Except.ok vs := by
  induction vs with
  | nil => rfl
  | cons v vs ih => simp [runChunk, ih]

lemma runChunk_filter {ε α : Type} (l : List (PyTask ε α)) :
    runChunk l = runChunk (l.filter (fun x => x.isCallable)) := by
  induction l with
  | nil => rfl
  | cons t ts ih =>
      cases t with
      | notCallable => simpa [runChunk, PyTask.isCallable] using ih
      | callable r =>
          cases r with
          | error e => simp [runChunk, PyTask.isCallable]
          | ok v => simp [runChunk, PyTask.isCallable, ih]

/-- C5: for every list of callable tasks, `throttled_batch_execute`
returns the task results in original input order, and if a task raises
the error propagates immediately and unmodified, with no partial result
list that skips the failure. (Batch size 0 is excluded: Python `range`
raises `ValueError` on step 0.) -/
theorem runBatch_order_and_error_propagation {ε α : Type} (t : ThrottlerState)
    (bs : Option ℕ) (vs ws : List α) (e : ε) (rest : List (PyTask ε α))
    (hbs : bs ≠ some 0) :
    throttled_batch_execute t
        (vs.map (fun v => (PyTask.callable (Except.ok v) : PyTask ε α))) bs
        = Except.ok vs ∧
      throttled_batch_execute t
        (ws.map (fun v => PyTask.callable (Except.ok v))
          ++ PyTask.callable (Except.error e) :: rest) bs = Except.error e := by
  refine ⟨?_, ?_⟩
  · rw [tbe_eq_runChunk, runChunk_all_ok]
  · rw [tbe_eq_runChunk, runChunk_append, runChunk_all_ok]
    rfl

/-- Witness for C5: three tasks returning 1, 2, 3 give `[1, 2, 3]`; when
the third task raises after two successes the whole call surfaces that
error. -/
theorem runBatch_order_and_error_propagation_witness :
    throttled_batch_execute (mkProcessThrottler 4)
        ([1, 2, 3].map (fun v => PyTask.callable (Except.ok v))) none
        = (Except.ok [1, 2, 3] : Except String (List ℤ)) ∧
      throttled_batch_execute (mkProcessThrottler 4)
        ([1, 2].map (fun v => PyTask.callable (Except.ok v))
          ++ PyTask.callable (Except.error "task failed")
            :: [PyTask.callable (Except.ok (9 : ℤ))]) none
        = Except.error "task failed" :=
  runBatch_order_and_error_propagation (mkProcessThrottler 4) none [1, 2, 3] [1, 2]
    "task failed" [PyTask.callable (Except.ok 9)] (by simp)

/-- C10: a non-callable element of the task list is silently skipped by
`throttled_batch_execute`: the run equals the run of the callable tasks
only, so with callables that all succeed around one non-callable the
result holds their values in order and is exactly one shorter than the
input list. (Batch size 0 is excluded: Python `range` raises
`ValueError` on step 0.) -/
theorem runBatch_skips_noncallables {ε α : Type} (t : ThrottlerState)
    (bs : Option ℕ) (tasks : List (PyTask ε α)) (vs1 vs2 : List α)
    (hbs : bs ≠ some 0) :
    throttled_batch_execute t tasks bs
        = runChunk (tasks.filter (fun x => x.isCallable)) ∧
      throttled_batch_execute t
        (vs1.map (fun v => (PyTask.callable (Except.ok v) : PyTask ε α))
          ++ PyTask.notCallable :: vs2.map (fun v => PyTask.callable (Except.ok v)))
        bs = Except.ok (vs1 ++ vs2) ∧
      (vs1 ++ vs2).length + 1
        = (vs1.map (fun v => (PyTask.callable (Except.ok v) : PyTask ε α))
            ++ PyTask.notCallable
              :: vs2.map (fun v => PyTask.callable (Except.ok v))).length := by
  refine ⟨?_, ?_, by
    simp only [List.length_append, List.length_map, List.length_cons]
    omega⟩
  · rw [tbe_eq_runChunk, runChunk_filter]
  · rw [tbe_eq_runChunk, runChunk_append, runChunk_all_ok]
    show exceptAppend (Except.ok vs1) (runChunk
      (vs2.map (fun v => PyTask.callable (Except.ok v)))) = Except.ok (vs1 ++ vs2)
    rw [runChunk_all_ok]
    rfl

/-- Witness for C10: tasks `[ok 1, notCallable, ok 2, ok 3]` give
`[1, 2, 3]`, a list one shorter than the input. -/
theorem runBatch_skips_noncallables_witness :
    throttled_batch_execute (mkProcessThrottler 4)
        ([(1 : ℤ)].map (fun v => PyTask.callable (Except.ok v)) ++ PyTask.notCallable
          :: [(2 : ℤ), 3].map (fun v => PyTask.callable (Except.ok v))) none
        = (Except.ok [1, 2, 3] : Except String (List ℤ)) ∧
      ([(1 : ℤ)] ++ [(2 : ℤ), 3]).length + 1
        = ([(1 : ℤ)].map (fun v => (PyTask.callable (Except.ok v) : PyTask String ℤ))
            ++ PyTask.notCallable
              :: [(2 : ℤ), 3].map (fun v => PyTask.callable (Except.ok v))).length :=
  ⟨(runBatch_skips_noncallables (mkProcessThrottler 4) none [] [1] [2, 3]
      (by simp)).2.1,
    (runBatch_skips_noncallables (mkProcessThrottler 4) none [] [1] [2, 3]
      (by simp)).2.2⟩

/-- C3 (code bug): `_monitor_cpu` has no `try`/`except` around the
`psutil.cpu_percent` call, so a sampling error is NOT swallowed: the
loop terminates with the error (the daemon thread dies) instead of
logging and continuing with the last-known value as the spec requires.
A successful sample, by contrast, keeps the loop running. -/
theorem monitor_loop_dies_on_sampler_error (s : GovState)
    (rest : List (Except Unit ℚ)) :
    monitorRunE s (Except.error () :: rest) = Except.error () ∧
      monitorRunE s [Except.ok 50] = Except.ok (monitorStep s 50) :=
  ⟨rfl, rfl⟩
